import Mathlib

/-!
Shallow embedding of `src/crimson/osd/scheduler/mclock_scheduler.cc`
(the Ceph crimson mClock OSD scheduler).

Pure functions of the source are translated as Lean functions; the mutable
scheduler state (the high-priority bypass map and the dmClock tag engine's
admitted-request queue) is passed explicitly.  Doubles of the source are
modelled as rationals, `unsigned`/`uint64_t` as `Nat`, `int` as `Int`.
Fatal `ceph_assert` / `assert` arms are modelled as `Option.none`.
Definitions carried over from the repository's header (which is not among
the staged source files) are marked `Modelled from the spec:` in their doc
comments.
-/

namespace MClock

/-- The scheduler QoS classes.  Modelled from the spec: `class :
SchedulerClass ∈ { immediate, client, background_recovery,
background_best_effort }` (the enum itself lives in the scheduler header;
the `.cc` indexes the internal-info array by the two background classes). -/
inductive scheduler_class_t
  | background_recovery
  | background_best_effort
  | client
  | immediate
deriving DecidableEq, Repr

/-- Modelled from the spec: an opaque identifier that `disambiguates
external tenants`; only equality on it is ever used. -/
def client_profile_id_t : Type := Nat

instance : DecidableEq client_profile_id_t := instDecidableEqNat

/-- A work item as the scheduler observes it: `get_priority()`,
`get_cost()`, and `params.klass` / the client profile id. -/
structure item_t where
  priority : Nat
  cost : Int
  klass : scheduler_class_t
  client_profile_id : client_profile_id_t
deriving DecidableEq

/-- Modelled from the spec: `SchedulerId. (class, client_profile_id) — the
key under which the TagEngine tracks per-client tag state`. -/
structure scheduler_id_t where
  class_id : scheduler_class_t
  client_profile_id : client_profile_id_t
deriving DecidableEq

/-- Modelled from the spec: `SchedulerId` of an item is its class paired
with its client profile id (the accessor lives in the scheduler header). -/
def get_scheduler_id (item : item_t) : scheduler_id_t :=
  ⟨item.klass, item.client_profile_id⟩

/-- Source `dmc::ClientInfo`: `(reservation, weight, limit)`, reservation and
limit in cost units per second (doubles, modelled as rationals). -/
structure ClientInfo where
  reservation : ℚ
  weight : Nat
  limit : ℚ
deriving DecidableEq

/-- Source `ClientInfo::update(res, wgt, lim)`. -/
def ClientInfo.update (res : ℚ) (wgt : Nat) (lim : ℚ) : ClientInfo :=
  ⟨res, wgt, lim⟩

/-- The nine `osd_mclock_scheduler_*_{res,wgt,lim}` configuration values
read by `ClientRegistry::update_from_config` (ratios are doubles, weights
`uint64_t`).  The same record doubles as the slice of the config store the
profile code writes defaults into. -/
structure QosConfig where
  client_res : ℚ
  client_wgt : Nat
  client_lim : ℚ
  background_recovery_res : ℚ
  background_recovery_wgt : Nat
  background_recovery_lim : ℚ
  background_best_effort_res : ℚ
  background_best_effort_wgt : Nat
  background_best_effort_lim : ℚ
deriving DecidableEq

/-- Source `mClockScheduler::ClientRegistry`: the default external-client entry,
one entry per internal background class (the source keeps these two in an
array indexed by the class enum), and the sparse external-client table
(a `std::map`, modelled as an association list). -/
structure ClientRegistry where
  default_external_client_info : ClientInfo
  internal_background_recovery : ClientInfo
  internal_background_best_effort : ClientInfo
  external_client_infos : List (client_profile_id_t × ClientInfo)
deriving DecidableEq

/-- The `get_res` lambda of `ClientRegistry::update_from_config`: a zero
reservation ratio yields `default_min`, otherwise the ratio is scaled by
the shard capacity.  `default_min` itself is a header constant, modelled
from the spec (`a strictly positive floor`) as an explicit parameter. -/
def get_res (default_min capacity_per_shard res : ℚ) : ℚ :=
  if res ≠ 0 then res * capacity_per_shard else default_min

/-- The `get_lim` lambda of `ClientRegistry::update_from_config`: a zero
limit ratio yields `default_max` (`a very large sentinel`, a header
constant modelled from the spec as an explicit parameter). -/
def get_lim (default_max capacity_per_shard lim : ℚ) : ℚ :=
  if lim ≠ 0 then lim * capacity_per_shard else default_max

/-- Source `ClientRegistry::update_from_config(conf, capacity_per_shard)`:
rewrites the default external entry and both internal-class entries from
the configured ratios and weights; the sparse external table is untouched. -/
def update_from_config (default_min default_max : ℚ) (conf : QosConfig)
    (capacity_per_shard : ℚ) (reg : ClientRegistry) : ClientRegistry :=
  { reg with
    default_external_client_info :=
      ClientInfo.update
        (get_res default_min capacity_per_shard conf.client_res)
        conf.client_wgt
        (get_lim default_max capacity_per_shard conf.client_lim)
    internal_background_recovery :=
      ClientInfo.update
        (get_res default_min capacity_per_shard conf.background_recovery_res)
        conf.background_recovery_wgt
        (get_lim default_max capacity_per_shard conf.background_recovery_lim)
    internal_background_best_effort :=
      ClientInfo.update
        (get_res default_min capacity_per_shard conf.background_best_effort_res)
        conf.background_best_effort_wgt
        (get_lim default_max capacity_per_shard conf.background_best_effort_lim) }

/-- Source `ClientRegistry::get_external_client`: hit the sparse table; on miss
return the default external entry. -/
def get_external_client (reg : ClientRegistry) (client : client_profile_id_t) :
    ClientInfo :=
  match reg.external_client_infos.lookup client with
  | some info => info
  | none => reg.default_external_client_info

/-- Source `ClientRegistry::get_info`: switch on the class; the `immediate` arm is
`ceph_assert(0 == "Cannot schedule immediate")`, modelled as `none`. -/
def get_info (reg : ClientRegistry) (id : scheduler_id_t) : Option ClientInfo :=
  match id.class_id with
  | scheduler_class_t.immediate => none
  | scheduler_class_t.client => some (get_external_client reg id.client_profile_id)
  | scheduler_class_t.background_recovery => some reg.internal_background_recovery
  | scheduler_class_t.background_best_effort => some reg.internal_background_best_effort

/-- Per-entry form of the spec's ClientRegistry invariant: reservation and
limit within `[default_min, default_max]` and weight at least one. -/
def infoInvariant (default_min default_max : ℚ) (info : ClientInfo) : Prop :=
  default_min ≤ info.reservation ∧ info.reservation ≤ default_max ∧
  default_min ≤ info.limit ∧ info.limit ≤ default_max ∧
  1 ≤ info.weight

instance (dmin dmax : ℚ) (info : ClientInfo) :
    Decidable (infoInvariant dmin dmax info) := by
  unfold infoInvariant; infer_instance

/-- The spec's ClientRegistry invariant over the three entries
`update_from_config` produces: the default external entry and both
internal-class entries. -/
def registryInvariant (default_min default_max : ℚ) (reg : ClientRegistry) : Prop :=
  infoInvariant default_min default_max reg.default_external_client_info ∧
  infoInvariant default_min default_max reg.internal_background_recovery ∧
  infoInvariant default_min default_max reg.internal_background_best_effort

instance (dmin dmax : ℚ) (reg : ClientRegistry) :
    Decidable (registryInvariant dmin dmax reg) := by
  unfold registryInvariant; infer_instance

/-- Source `mClockScheduler::calc_scaled_cost(item_cost)`: clamp the declared cost
to at least 1, then charge at least `osd_bandwidth_cost_per_io` (the
`uint32_t` truncation of that double, taken here as a `Nat` parameter). -/
def calc_scaled_cost (osd_bandwidth_cost_per_io : Nat) (item_cost : Int) : Nat :=
  let cost := (max 1 item_cost).toNat
  max cost osd_bandwidth_cost_per_io

/-- Modelled from the spec: `CEPH_MSG_PRIO_HIGH`, the fixed `high` cutoff
constant (the spec's cutoff-bypass scenario uses 196). -/
def CEPH_MSG_PRIO_HIGH : Nat := 196

/-- Modelled from the spec: `CEPH_MSG_PRIO_LOW`, the fixed `low` cutoff
constant, distinct from and below the high constant. -/
def CEPH_MSG_PRIO_LOW : Nat := 64

/-- The `get_op_queue_cut_off` lambda of the constructor.  The
`std::mt19937` draw of the `debug_random` arm is an input: `rand_val`
stands for `random_gen()`, and the source keeps high when
`random_gen() % 2 < 1`. -/
def get_op_queue_cut_off (osd_op_queue_cut_off : String) (rand_val : Nat) : Nat :=
  if osd_op_queue_cut_off = "debug_random" then
    if rand_val % 2 < 1 then CEPH_MSG_PRIO_HIGH else CEPH_MSG_PRIO_LOW
  else if osd_op_queue_cut_off = "high" then CEPH_MSG_PRIO_HIGH
  else CEPH_MSG_PRIO_LOW

/-- Modelled from the spec: `immediate_class_priority — a constant above
any configurable priority` (a header constant; configurable priorities are
32-bit message priorities). -/
def immediate_class_priority : Nat := 4294967295

/-- A high-priority bucket is a `std::deque<item_t>`: index 0 is the front
of the deque, the last element its back. -/
abbrev Bucket := List item_t

/-- The body of `enqueue_high` on one bucket: `front = true` is
`push_back`, `front = false` is `push_front`. -/
def bucket_push (dq : Bucket) (item : item_t) (front : Bool) : Bucket :=
  if front then dq ++ [item] else item :: dq

/-- The high-priority structure, `std::map<priority, deque, greater>`,
modelled as an association list kept sorted by strictly descending
priority.  Modelled from the spec: `Iteration order is descending priority
(highest first)` (the comparator lives in the header). -/
abbrev HighPriorityMap := List (Nat × Bucket)

/-- Source `mClockScheduler::enqueue_high(priority, item, front)`: insert into the
bucket of `priority` (creating it in descending key position), pushing to
the deque's back when `front` is set and to its front otherwise. -/
def enqueue_high (priority : Nat) (item : item_t) (front : Bool) :
    HighPriorityMap → HighPriorityMap
  | [] => [(priority, bucket_push [] item front)]
  | (p, dq) :: rest =>
    if p < priority then (priority, bucket_push [] item front) :: (p, dq) :: rest
    else if priority = p then (p, bucket_push dq item front) :: rest
    else (p, dq) :: enqueue_high priority item front rest

/-- Source `dmc::PullPriorityQueue::PullReq` outcomes: a future wake-up time, a
returned request, or nothing pending. -/
inductive PullReq
  | future (t : ℚ)
  | retn (item : item_t)
  | none
deriving DecidableEq

/-- Source `WorkItem = std::variant<std::monostate, item_t, double>`. -/
inductive WorkItem
  | mono
  | item (i : item_t)
  | time (t : ℚ)
deriving DecidableEq

/-- Source `mClockScheduler::dequeue()`.  The high-priority map's first entry is
popped from the back of its deque, the bucket erased when emptied; only on
an empty map is the tag engine consulted, whose `pull_request()` outcome is
the `pull` argument.  The two fatal arms (`assert(!iter->second.empty())`
and the `ceph_assert` on a `None` pull) are modelled as `Option.none`. -/
def dequeue (hp : HighPriorityMap) (pull : PullReq) :
    Option (WorkItem × HighPriorityMap) :=
  match hp with
  | (prio, dq) :: rest =>
    match dq.getLast? with
    | some it =>
      let dq2 := dq.dropLast
      some (WorkItem.item it, if dq2.isEmpty then rest else (prio, dq2) :: rest)
    | none => none
  | [] =>
    match pull with
    | PullReq.future t => some (WorkItem.time t, [])
    | PullReq.retn it => some (WorkItem.item it, [])
    | PullReq.none => none

/-- Repeatedly `dequeue` the high-priority structure (the tag engine kept
empty), collecting the items in the order they come out; `fuel` bounds the
number of pops. -/
def drainFuel : Nat → HighPriorityMap → List item_t
  | 0, _ => []
  | Nat.succ n, hp =>
    match dequeue hp PullReq.none with
    | some (WorkItem.item it, hp2) => it :: drainFuel n hp2
    | _ => []

/-- The scheduler state the enqueue path touches: the high-priority bypass
map and the tag engine's admitted requests (each with its scheduler id and
scaled cost), in admission order. -/
structure SchedState where
  high_priority : HighPriorityMap
  scheduler_requests : List (item_t × scheduler_id_t × Nat)
deriving DecidableEq

/-- Source `mClockScheduler::enqueue(item)`: immediate-class items bypass at
`immediate_class_priority`, items at or above the cutoff bypass at their
own priority, and everything else is handed to the tag engine via
`add_request` with cost `calc_scaled_cost(item.get_cost())`. -/
def enqueue (cutoff_priority : Nat) (osd_bandwidth_cost_per_io : Nat)
    (item : item_t) (s : SchedState) : SchedState :=
  let id := get_scheduler_id item
  let priority := item.priority
  if item.klass = scheduler_class_t.immediate then
    { s with high_priority :=
        enqueue_high immediate_class_priority item false s.high_priority }
  else if cutoff_priority ≤ priority then
    { s with high_priority := enqueue_high priority item false s.high_priority }
  else
    let cost := calc_scaled_cost osd_bandwidth_cost_per_io item.cost
    { s with scheduler_requests := s.scheduler_requests ++ [(item, id, cost)] }

/-- The observable effects of `handle_conf_change`, in program order. -/
inductive ConfAction
  | set_osd_capacity_params
  | update_registry
  | set_profile_defaults
deriving DecidableEq

/-- The nine per-class QoS keys `get_changed_key` scans. -/
def qos_params : List String :=
  ["osd_mclock_scheduler_client_res",
   "osd_mclock_scheduler_client_wgt",
   "osd_mclock_scheduler_client_lim",
   "osd_mclock_scheduler_background_recovery_res",
   "osd_mclock_scheduler_background_recovery_wgt",
   "osd_mclock_scheduler_background_recovery_lim",
   "osd_mclock_scheduler_background_best_effort_res",
   "osd_mclock_scheduler_background_best_effort_wgt",
   "osd_mclock_scheduler_background_best_effort_lim"]

/-- Source `mClockScheduler::handle_conf_change(conf, changed)` as the sequence of
capacity/profile/registry effects it performs: IOPS keys, then bandwidth
keys, each recompute capacity and refresh the registry; a profile change
re-applies profile defaults and refreshes; a changed QoS key refreshes only
under the `custom` profile (`mclock_profile` is the active profile the
handler reads back from the config). -/
def handle_conf_change (changed : List String) (mclock_profile : String) :
    List ConfAction :=
  (if changed.contains "osd_mclock_max_capacity_iops_hdd" ∨
      changed.contains "osd_mclock_max_capacity_iops_ssd" then
    [ConfAction.set_osd_capacity_params, ConfAction.update_registry]
  else []) ++
  (if changed.contains "osd_mclock_max_sequential_bandwidth_hdd" ∨
      changed.contains "osd_mclock_max_sequential_bandwidth_ssd" then
    [ConfAction.set_osd_capacity_params, ConfAction.update_registry]
  else []) ++
  (if changed.contains "osd_mclock_profile" then
    [ConfAction.set_profile_defaults, ConfAction.update_registry]
  else []) ++
  (if (qos_params.any fun k => changed.contains k) ∧ mclock_profile = "custom" then
    [ConfAction.update_registry]
  else [])

/-- Source `profile_t::client_config_t`. -/
structure client_config_t where
  reservation : ℚ
  weight : Nat
  limit : ℚ
deriving DecidableEq

/-- Source `profile_t`: one `(reservation, weight, limit)` triple per QoS class. -/
structure profile_t where
  client : client_config_t
  background_recovery : client_config_t
  background_best_effort : client_config_t
deriving DecidableEq

/-- The `high_client_ops` profile constants of the source. -/
def high_client_ops_profile : profile_t :=
  ⟨⟨6/10, 2, 0⟩, ⟨4/10, 1, 0⟩, ⟨0, 1, 7/10⟩⟩

/-- The `high_recovery_ops` profile constants of the source. -/
def high_recovery_ops_profile : profile_t :=
  ⟨⟨3/10, 1, 0⟩, ⟨7/10, 2, 0⟩, ⟨0, 1, 0⟩⟩

/-- The `balanced` profile constants of the source. -/
def balanced_profile : profile_t :=
  ⟨⟨5/10, 1, 0⟩, ⟨5/10, 1, 0⟩, ⟨0, 1, 9/10⟩⟩

/-- The block of `set_config` calls: write all nine profile-derived
defaults into the QoS slice of the config store. -/
def apply_profile (p : profile_t) : QosConfig :=
  { client_res := p.client.reservation
    client_wgt := p.client.weight
    client_lim := p.client.limit
    background_recovery_res := p.background_recovery.reservation
    background_recovery_wgt := p.background_recovery.weight
    background_recovery_lim := p.background_recovery.limit
    background_best_effort_res := p.background_best_effort.reservation
    background_best_effort_wgt := p.background_best_effort.weight
    background_best_effort_lim := p.background_best_effort.limit }

/-- Source `mClockScheduler::set_config_defaults_from_profile()`: shards with
`shard_id > 0` return without writing; otherwise the named profile's nine
defaults are written, `custom` writes nothing, and any other profile name
hits `ceph_assert("Invalid choice of mclock profile" == 0)`, modelled as
`none`.  `conf` is the QoS slice of the config store. -/
def set_config_defaults_from_profile (shard_id : Int) (mclock_profile : String)
    (conf : QosConfig) : Option QosConfig :=
  if shard_id > 0 then some conf
  else if mclock_profile = "high_client_ops" then
    some (apply_profile high_client_ops_profile)
  else if mclock_profile = "high_recovery_ops" then
    some (apply_profile high_recovery_ops_profile)
  else if mclock_profile = "balanced" then
    some (apply_profile balanced_profile)
  else if mclock_profile = "custom" then some conf
  else none

/-- A concrete configuration with an operator-set weight of 0 for the
external client class (the other entries well-behaved). -/
def zero_weight_conf : QosConfig :=
  ⟨1/2, 0, 1/2, 1/2, 1, 1/2, 1/2, 1, 1/2⟩

/-- The registry as constructed: the placeholder `ClientInfo(1, 1, 1)`
entries of the header and an empty external table. -/
def initial_registry : ClientRegistry :=
  ⟨⟨1, 1, 1⟩, ⟨1, 1, 1⟩, ⟨1, 1, 1⟩, []⟩


/-- C4: for every declared item cost `k`, `calc_scaled_cost k` is
`max(k, cost_per_io)` after clamping `k` to at least 1; in particular the
result is always at least `osd_bandwidth_cost_per_io` and at least 1, so a
zero or negative declared cost is charged at least one IO. -/
theorem calc_scaled_cost_spec :
    ∀ (osd_bandwidth_cost_per_io : Nat) (k : Int),
    ((calc_scaled_cost osd_bandwidth_cost_per_io k : Int) =
        max (max 1 k) (osd_bandwidth_cost_per_io : Int)) ∧
    osd_bandwidth_cost_per_io ≤ calc_scaled_cost osd_bandwidth_cost_per_io k ∧
    1 ≤ calc_scaled_cost osd_bandwidth_cost_per_io k := by
  intro cpio k
  simp only [calc_scaled_cost]
  omega

/-- C10: the constructor's cutoff is the high constant exactly when the
option is `high` or `debug_random` draws an even value; every other
string, including ones outside the documented set, silently maps to the
low constant. -/
theorem cutoff_priority_selection :
    ∀ (s : String) (rand_val : Nat),
    (get_op_queue_cut_off s rand_val = CEPH_MSG_PRIO_HIGH ↔
       (s = "high" ∨ (s = "debug_random" ∧ rand_val % 2 = 0))) ∧
    (s ≠ "high" → s ≠ "debug_random" →
       get_op_queue_cut_off s rand_val = CEPH_MSG_PRIO_LOW) := by
  intro s r
  constructor
  · by_cases hd : s = "debug_random"
    · subst hd
      by_cases hr : r % 2 < 1 <;>
        simp [get_op_queue_cut_off, hr, CEPH_MSG_PRIO_HIGH, CEPH_MSG_PRIO_LOW] <;>
        omega
    · by_cases hh : s = "high"
      · subst hh
        simp [get_op_queue_cut_off]
      · simp [get_op_queue_cut_off, hd, hh, CEPH_MSG_PRIO_HIGH, CEPH_MSG_PRIO_LOW]
  · intro hh hd
    simp [get_op_queue_cut_off, hh, hd]

/-- C7: `get_info` is total over every non-immediate scheduler id — class
`client` goes through the sparse external table with fallback to the
default external entry, the background classes return their internal
entries — and the `immediate` class is the fatal-assert arm (`none`). -/
theorem get_info_total_spec :
    ∀ (reg : ClientRegistry) (id : scheduler_id_t),
    (id.class_id = scheduler_class_t.immediate → get_info reg id = none) ∧
    (id.class_id = scheduler_class_t.client →
       get_info reg id = some (get_external_client reg id.client_profile_id)) ∧
    (id.class_id = scheduler_class_t.background_recovery →
       get_info reg id = some reg.internal_background_recovery) ∧
    (id.class_id = scheduler_class_t.background_best_effort →
       get_info reg id = some reg.internal_background_best_effort) ∧
    (id.class_id ≠ scheduler_class_t.immediate → (get_info reg id).isSome = true) ∧
    (∀ cpid, reg.external_client_infos.lookup cpid = none →
       get_external_client reg cpid = reg.default_external_client_info) := by
  intro reg id
  obtain ⟨c, cpid⟩ := id
  refine ⟨?_, ?_, ?_, ?_, ?_, ?_⟩
  · intro h; cases h; rfl
  · intro h; cases h; rfl
  · intro h; cases h; rfl
  · intro h; cases h; rfl
  · intro h; cases c <;> simp [get_info] at h ⊢
  · intro cp h; simp [get_external_client, h]

/-- C6: `update_from_config` computes each of the three entries purely from
the configured values and the capacity: a zero reservation ratio yields the
`default_min` floor, a zero limit ratio yields the `default_max` sentinel,
a nonzero ratio yields ratio times capacity; the sparse external table is
untouched, and a second identical call leaves the registry unchanged. -/
theorem update_from_config_pure_idempotent :
    ∀ (dmin dmax : ℚ) (conf : QosConfig) (cap : ℚ) (reg : ClientRegistry),
    (update_from_config dmin dmax conf cap reg).default_external_client_info =
      ⟨if conf.client_res = 0 then dmin else conf.client_res * cap,
       conf.client_wgt,
       if conf.client_lim = 0 then dmax else conf.client_lim * cap⟩ ∧
    (update_from_config dmin dmax conf cap reg).internal_background_recovery =
      ⟨if conf.background_recovery_res = 0 then dmin
        else conf.background_recovery_res * cap,
       conf.background_recovery_wgt,
       if conf.background_recovery_lim = 0 then dmax
        else conf.background_recovery_lim * cap⟩ ∧
    (update_from_config dmin dmax conf cap reg).internal_background_best_effort =
      ⟨if conf.background_best_effort_res = 0 then dmin
        else conf.background_best_effort_res * cap,
       conf.background_best_effort_wgt,
       if conf.background_best_effort_lim = 0 then dmax
        else conf.background_best_effort_lim * cap⟩ ∧
    (update_from_config dmin dmax conf cap reg).external_client_infos =
      reg.external_client_infos ∧
    update_from_config dmin dmax conf cap (update_from_config dmin dmax conf cap reg) =
      update_from_config dmin dmax conf cap reg := by
  intro dmin dmax conf cap reg
  refine ⟨?_, ?_, ?_, rfl, rfl⟩ <;>
    simp [update_from_config, ClientInfo.update, get_res, get_lim, ite_not]

/-- C8: shards with positive id write nothing; on shard 0 each named
profile writes exactly its nine `(res, wgt, lim)` defaults into the QoS
slice of the config store, `custom` writes nothing, and any other profile
name is the fatal configuration-error arm (`none`). -/
theorem set_config_defaults_from_profile_spec :
    ∀ (shard_id : Int) (mclock_profile : String) (conf : QosConfig),
    (0 ≤ shard_id → shard_id ≠ 0 →
       set_config_defaults_from_profile shard_id mclock_profile conf = some conf) ∧
    (set_config_defaults_from_profile 0 "high_client_ops" conf =
       some ⟨6/10, 2, 0, 4/10, 1, 0, 0, 1, 7/10⟩) ∧
    (set_config_defaults_from_profile 0 "high_recovery_ops" conf =
       some ⟨3/10, 1, 0, 7/10, 2, 0, 0, 1, 0⟩) ∧
    (set_config_defaults_from_profile 0 "balanced" conf =
       some ⟨5/10, 1, 0, 5/10, 1, 0, 0, 1, 9/10⟩) ∧
    (set_config_defaults_from_profile 0 "custom" conf = some conf) ∧
    (mclock_profile ≠ "high_client_ops" → mclock_profile ≠ "high_recovery_ops" →
     mclock_profile ≠ "balanced" → mclock_profile ≠ "custom" →
       set_config_defaults_from_profile 0 mclock_profile conf = none) := by
  intro sid prof conf
  refine ⟨?_, ?_, ?_, ?_, ?_, ?_⟩
  · intro h0 hne
    have hpos : sid > 0 := lt_of_le_of_ne h0 (Ne.symm hne)
    simp [set_config_defaults_from_profile, hpos]
  · simp [set_config_defaults_from_profile, apply_profile, high_client_ops_profile]
  · simp [set_config_defaults_from_profile, apply_profile, high_recovery_ops_profile]
  · simp [set_config_defaults_from_profile, apply_profile, balanced_profile]
  · simp [set_config_defaults_from_profile]
  · intro h1 h2 h3 h4
    simp [set_config_defaults_from_profile, h1, h2, h3, h4]

/-- C1: `enqueue` places immediate-class items in the bypass structure at
`immediate_class_priority`, items at or above the cutoff priority in the
bypass structure at their own priority, and hands everything else to the
tag engine with cost `calc_scaled_cost(item.cost)`; items taking a bypass
branch never reach the tag engine's request queue. -/
theorem enqueue_routes_items :
    ∀ (cutoff_priority osd_bandwidth_cost_per_io : Nat) (item : item_t)
      (s : SchedState),
    (item.klass = scheduler_class_t.immediate →
       enqueue cutoff_priority osd_bandwidth_cost_per_io item s =
         { s with high_priority :=
             enqueue_high immediate_class_priority item false s.high_priority }) ∧
    (item.klass ≠ scheduler_class_t.immediate → cutoff_priority ≤ item.priority →
       enqueue cutoff_priority osd_bandwidth_cost_per_io item s =
         { s with high_priority :=
             enqueue_high item.priority item false s.high_priority }) ∧
    (item.klass ≠ scheduler_class_t.immediate → item.priority < cutoff_priority →
       enqueue cutoff_priority osd_bandwidth_cost_per_io item s =
         { s with scheduler_requests := s.scheduler_requests ++
             [(item, get_scheduler_id item,
               calc_scaled_cost osd_bandwidth_cost_per_io item.cost)] }) ∧
    ((item.klass = scheduler_class_t.immediate ∨ cutoff_priority ≤ item.priority) →
       (enqueue cutoff_priority osd_bandwidth_cost_per_io item s).scheduler_requests =
         s.scheduler_requests) := by
  intro cutoff cpio item s
  refine ⟨?_, ?_, ?_, ?_⟩
  · intro hk
    simp [enqueue, hk]
  · intro hk hp
    simp [enqueue, hk, hp]
  · intro hk hp
    have hnp : ¬ cutoff ≤ item.priority := by omega
    simp [enqueue, hk, hnp]
  · rintro (hk | hp)
    · simp [enqueue, hk]
    · by_cases hk : item.klass = scheduler_class_t.immediate <;>
        simp [enqueue, hk, hp]

/-- C2: with a non-empty high-priority structure, `dequeue` pops the tail
of the bucket with the greatest priority, erases that bucket when the pop
empties it, and never consults the tag engine (the result is the same for
every `pull_request` outcome); only with the structure empty does it
dispatch on `pull_request`: a `Future` yields the wake-up time, a `Retn`
the unwrapped item, and `None` the fatal-assert arm (`Option.none`). -/
theorem dequeue_prefers_high_priority :
    ∀ (p : Nat) (dq : Bucket) (rest : HighPriorityMap) (t : ℚ) (it : item_t),
    ((∀ q ∈ rest.map Prod.fst, q < p) → dq ≠ [] →
       ∃ last, dq.getLast? = some last ∧
         ∀ pull, dequeue ((p, dq) :: rest) pull =
           some (WorkItem.item last,
             if dq.dropLast.isEmpty then rest else (p, dq.dropLast) :: rest)) ∧
    dequeue [] (PullReq.future t) = some (WorkItem.time t, []) ∧
    dequeue [] (PullReq.retn it) = some (WorkItem.item it, []) ∧
    dequeue [] PullReq.none = none := by
  intro p dq rest t it
  refine ⟨?_, rfl, rfl, rfl⟩
  intro _ hne
  obtain ⟨last, hlast⟩ := Option.isSome_iff_exists.mp
    (List.getLast?_isSome.mpr hne)
  refine ⟨last, hlast, fun pull => ?_⟩
  simp [dequeue, hlast]

/-- C9: whenever a bandwidth or IOPS key is among the changed keys,
`handle_conf_change` first recomputes the capacity parameters and then
refreshes the ClientRegistry; when neither a capacity key nor the profile
key changed, the registry is refreshed exactly when some per-class QoS key
changed and the active profile is `custom`. -/
theorem handle_conf_change_spec :
    ∀ (changed : List String) (mclock_profile : String),
    ((changed.contains "osd_mclock_max_capacity_iops_hdd" = true ∨
      changed.contains "osd_mclock_max_capacity_iops_ssd" = true ∨
      changed.contains "osd_mclock_max_sequential_bandwidth_hdd" = true ∨
      changed.contains "osd_mclock_max_sequential_bandwidth_ssd" = true) →
      List.IsPrefix
        [ConfAction.set_osd_capacity_params, ConfAction.update_registry]
        (handle_conf_change changed mclock_profile)) ∧
    ((changed.contains "osd_mclock_max_capacity_iops_hdd" = false ∧
      changed.contains "osd_mclock_max_capacity_iops_ssd" = false ∧
      changed.contains "osd_mclock_max_sequential_bandwidth_hdd" = false ∧
      changed.contains "osd_mclock_max_sequential_bandwidth_ssd" = false ∧
      changed.contains "osd_mclock_profile" = false) →
      (ConfAction.update_registry ∈ handle_conf_change changed mclock_profile ↔
        ((qos_params.any fun k => changed.contains k) = true ∧
          mclock_profile = "custom"))) := by
  intro changed profile
  constructor
  · intro h
    by_cases h1 : (changed.contains "osd_mclock_max_capacity_iops_hdd" = true ∨
        changed.contains "osd_mclock_max_capacity_iops_ssd" = true)
    · simp only [handle_conf_change, if_pos h1, List.append_assoc]
      exact ⟨_, rfl⟩
    · have h2 : (changed.contains "osd_mclock_max_sequential_bandwidth_hdd" = true ∨
          changed.contains "osd_mclock_max_sequential_bandwidth_ssd" = true) := by
        tauto
      simp only [handle_conf_change, if_neg h1, if_pos h2, List.nil_append,
        List.append_assoc]
      exact ⟨_, rfl⟩
  · rintro ⟨h1, h2, h3, h4, h5⟩
    simp only [handle_conf_change, h1, h2, h3, h4, h5]
    by_cases hq : ((qos_params.any fun k => changed.contains k) = true ∧
        profile = "custom")
    · simp [hq]
    · simp [hq]

/-- Helper: pushing into the map's existing bucket of the same priority. -/
theorem enqueue_high_same (p : Nat) (x : item_t) (f : Bool) (dq : Bucket)
    (rest : HighPriorityMap) :
    enqueue_high p x f ((p, dq) :: rest) = (p, bucket_push dq x f) :: rest := by
  simp [enqueue_high]

/-- Helper: a back-enqueue pushes to the deque's front. -/
theorem bucket_push_back (dq : Bucket) (x : item_t) :
    bucket_push dq x false = x :: dq := rfl

/-- Helper: a front-enqueue pushes to the deque's back. -/
theorem bucket_push_front (dq : Bucket) (x : item_t) :
    bucket_push dq x true = dq ++ [x] := rfl

/-- Helper: a run of back-enqueues at one priority builds the bucket by
consing, i.e. the bucket holds the items in reverse admission order. -/
theorem foldl_enqueue_back (p : Nat) :
    ∀ (xs : List item_t) (dq : Bucket),
    xs.foldl (fun hp x => enqueue_high p x false hp) [(p, dq)] =
      [(p, xs.reverse ++ dq)] := by
  intro xs
  induction xs with
  | nil => intro dq; simp
  | cons x xs ih =>
    intro dq
    rw [List.foldl_cons, enqueue_high_same, bucket_push_back, ih]
    simp

/-- Helper: a run of front-enqueues at one priority appends to the bucket,
i.e. the bucket holds the items in admission order. -/
theorem foldl_enqueue_front (p : Nat) :
    ∀ (ys : List item_t) (dq : Bucket),
    ys.foldl (fun hp y => enqueue_high p y true hp) [(p, dq)] =
      [(p, dq ++ ys)] := by
  intro ys
  induction ys with
  | nil => intro dq; simp
  | cons y ys ih =>
    intro dq
    rw [List.foldl_cons, enqueue_high_same, bucket_push_front, ih]
    simp

/-- Helper: draining an empty high-priority map yields nothing. -/
theorem drainFuel_nil (n : Nat) : drainFuel n [] = [] := by
  cases n <;> simp [drainFuel, dequeue]

/-- Helper: draining a single bucket pops from its back each time, so the
items come out in reverse bucket order. -/
theorem drainFuel_single (p : Nat) :
    ∀ (n : Nat) (dq : Bucket), dq.length ≤ n →
    drainFuel n [(p, dq)] = dq.reverse := by
  intro n
  induction n with
  | zero =>
    intro dq h
    have hnil : dq = [] := List.eq_nil_of_length_eq_zero (Nat.le_zero.mp h)
    subst hnil
    rfl
  | succ n ih =>
    intro dq h
    rcases dq.eq_nil_or_concat with rfl | ⟨l, a, rfl⟩
    · simp [drainFuel, dequeue]
    · simp only [List.concat_eq_append] at h ⊢
      have hlast : (l ++ [a]).getLast? = some a := List.getLast?_concat l
      have hdrop : (l ++ [a]).dropLast = l := List.dropLast_concat
      simp only [drainFuel, dequeue, hlast, hdrop]
      by_cases hl : l = []
      · subst hl
        simp [drainFuel_nil]
      · have hlen : l.length ≤ n := by
          rw [List.length_append] at h
          simp at h
          omega
        have hemp : l.isEmpty = false := by
          simpa [List.isEmpty_iff] using hl
        simp only [hemp, Bool.false_eq_true, if_false]
        rw [ih l hlen]
        simp

/-- C3: within one priority bucket, items admitted by back-enqueue come
out of repeated dequeues in FIFO order (oldest first), while items
admitted by front-enqueue come out in LIFO order (most recently
front-enqueued first). -/
theorem bucket_fifo_lifo_order :
    ∀ (p : Nat) (xs ys : List item_t),
    drainFuel xs.length
      (xs.foldl (fun hp x => enqueue_high p x false hp) []) = xs ∧
    drainFuel ys.length
      (ys.foldl (fun hp y => enqueue_high p y true hp) []) = ys.reverse := by
  intro p xs ys
  constructor
  · cases xs with
    | nil => rfl
    | cons x xs =>
      have h0 : enqueue_high p x false [] = [(p, [x])] := by
        simp [enqueue_high, bucket_push]
      rw [List.foldl_cons, h0, foldl_enqueue_back,
        drainFuel_single p _ _ (by simp)]
      simp
  · cases ys with
    | nil => rfl
    | cons y ys =>
      have h0 : enqueue_high p y true [] = [(p, [y])] := by
        simp [enqueue_high, bucket_push]
      rw [List.foldl_cons, h0, foldl_enqueue_front,
        drainFuel_single p _ _ (by simp)]
      rfl

/-- Helper: the invariant on one materialized entry, reduced to conditions
on the configured ratio, weight, and the scaled values. -/
theorem infoInvariant_update_iff (dmin dmax cap r l : ℚ) (w : Nat) :
    infoInvariant dmin dmax
      (ClientInfo.update (get_res dmin cap r) w (get_lim dmax cap l)) ↔
    (dmin ≤ dmax ∧ 1 ≤ w ∧
     (r = 0 ∨ (dmin ≤ r * cap ∧ r * cap ≤ dmax)) ∧
     (l = 0 ∨ (dmin ≤ l * cap ∧ l * cap ≤ dmax))) := by
  simp only [infoInvariant, ClientInfo.update, get_res, get_lim]
  by_cases hr : r = 0 <;> by_cases hl : l = 0
  · rw [if_neg (fun hne => hne hr), if_neg (fun hne => hne hl)]
    constructor
    · rintro ⟨h1, h2, h3, h4, h5⟩
      exact ⟨h2, h5, Or.inl hr, Or.inl hl⟩
    · rintro ⟨h0, hw, hc1, hc2⟩
      exact ⟨le_refl _, h0, h0, le_refl _, hw⟩
  · rw [if_neg (fun hne => hne hr), if_pos hl]
    constructor
    · rintro ⟨h1, h2, h3, h4, h5⟩
      exact ⟨h2, h5, Or.inl hr, Or.inr ⟨h3, h4⟩⟩
    · rintro ⟨h0, hw, hc1, hlc⟩
      rcases hlc with h | ⟨h3, h4⟩
      · exact absurd h hl
      · exact ⟨le_refl _, h0, h3, h4, hw⟩
  · rw [if_pos hr, if_neg (fun hne => hne hl)]
    constructor
    · rintro ⟨h1, h2, h3, h4, h5⟩
      exact ⟨h3, h5, Or.inr ⟨h1, h2⟩, Or.inl hl⟩
    · rintro ⟨h0, hw, hrc, hc2⟩
      rcases hrc with h | ⟨h1, h2⟩
      · exact absurd h hr
      · exact ⟨h1, h2, h0, le_refl _, hw⟩
  · rw [if_pos hr, if_pos hl]
    constructor
    · rintro ⟨h1, h2, h3, h4, h5⟩
      exact ⟨h1.trans h2, h5, Or.inr ⟨h1, h2⟩, Or.inr ⟨h3, h4⟩⟩
    · rintro ⟨h0, hw, hrc, hlc⟩
      rcases hrc with h | ⟨h1, h2⟩
      · exact absurd h hr
      rcases hlc with h | ⟨h3, h4⟩
      · exact absurd h hl
      exact ⟨h1, h2, h3, h4, hw⟩

/-- C5 (amended): after `update_from_config`, the three produced entries
satisfy the `[default_min, default_max]` bounds on reservation and limit
and `weight ≥ 1` exactly when the floor is below the sentinel, every
configured weight is at least 1, and every nonzero configured ratio scaled
by the capacity lies within the bounds — the function itself clamps
nothing. -/
theorem update_from_config_invariant_iff :
    ∀ (dmin dmax : ℚ) (conf : QosConfig) (cap : ℚ) (reg : ClientRegistry),
    registryInvariant dmin dmax (update_from_config dmin dmax conf cap reg) ↔
      (dmin ≤ dmax ∧
       1 ≤ conf.client_wgt ∧
       1 ≤ conf.background_recovery_wgt ∧
       1 ≤ conf.background_best_effort_wgt ∧
       (conf.client_res = 0 ∨
         (dmin ≤ conf.client_res * cap ∧ conf.client_res * cap ≤ dmax)) ∧
       (conf.client_lim = 0 ∨
         (dmin ≤ conf.client_lim * cap ∧ conf.client_lim * cap ≤ dmax)) ∧
       (conf.background_recovery_res = 0 ∨
         (dmin ≤ conf.background_recovery_res * cap ∧
          conf.background_recovery_res * cap ≤ dmax)) ∧
       (conf.background_recovery_lim = 0 ∨
         (dmin ≤ conf.background_recovery_lim * cap ∧
          conf.background_recovery_lim * cap ≤ dmax)) ∧
       (conf.background_best_effort_res = 0 ∨
         (dmin ≤ conf.background_best_effort_res * cap ∧
          conf.background_best_effort_res * cap ≤ dmax)) ∧
       (conf.background_best_effort_lim = 0 ∨
         (dmin ≤ conf.background_best_effort_lim * cap ∧
          conf.background_best_effort_lim * cap ≤ dmax))) := by
  intro dmin dmax conf cap reg
  simp only [registryInvariant, update_from_config]
  rw [infoInvariant_update_iff, infoInvariant_update_iff, infoInvariant_update_iff]
  constructor
  · rintro ⟨⟨a, b1, c1, d1⟩, ⟨a2, b2, c2, d2⟩, ⟨a3, b3, c3, d3⟩⟩
    exact ⟨a, b1, b2, b3, c1, d1, c2, d2, c3, d3⟩
  · rintro ⟨a, b1, b2, b3, c1, d1, c2, d2, c3, d3⟩
    exact ⟨⟨a, b1, c1, d1⟩, ⟨a, b2, c2, d2⟩, ⟨a, b3, c3, d3⟩⟩

/-- C5 counterexample: with a configured weight of 0 for the external
client class, the registry `update_from_config` produces violates the
spec's invariant (the default external entry's weight is 0, not at least
1), even though every ratio is well within the bounds. -/
theorem update_from_config_invariant_cex :
    ¬ registryInvariant 1 1000000
        (update_from_config 1 1000000 zero_weight_conf 100 initial_registry) := by
  intro h
  exact absurd h.1.2.2.2.2 (by decide)

end MClock
